import Mathlib

/-!
Verification of the MaxStorage Ultimate sensor platform
(custom_components/maxstorage_ultimate/sensor.py).

The platform is embedded shallowly: snapshots are Python-like values,
value projections are functions from a snapshot to either a value or a
raised Python error, and the sensor adapter is a structure holding the
coordinator handle and its entity description, with the derived
attributes computed exactly as the source computes them.
-/

namespace MaxStorage

/-- Python-like runtime values occurring in a device snapshot: the value
None, integers, strings, booleans, and string-keyed dictionaries. -/
inductive PyVal where
  | none
  | int (n : Int)
  | str (s : String)
  | bool (b : Bool)
  | dict (entries : List (String × PyVal))

/-- Python-level errors raised by the projection functions: typeError is
raised when subscripting a non-dictionary value (for example the value
None), keyError when a dictionary lacks the requested key. keyError is
the error the spec calls MissingFieldError. -/
inductive PyErr where
  | typeError
  | keyError (k : String)
deriving DecidableEq

/-- Python subscript v[k] with a string key: looks the key up in a
dictionary, raising keyError when absent, and raises typeError when the
subscripted value is not a dictionary. -/
def subscript : PyVal → String → Except PyErr PyVal
  | PyVal.dict es, k =>
    match es.lookup k with
    | Option.some v => Except.ok v
    | Option.none => Except.error (PyErr.keyError k)
  | _, _ => Except.error PyErr.typeError

/-- Python equality of a runtime value against a string literal: true
exactly when the value is a string equal to the literal; values of any
other type never compare equal to a string in Python. -/
def pyEqStr (v : PyVal) (s : String) : Bool :=
  match v with
  | PyVal.str t => t == s
  | _ => false

/-- Unit constant from the host framework: homeassistant.const.PERCENTAGE. -/
def PERCENTAGE : String := "%"

/-- Unit constant from the host framework: UnitOfEnergy.WATT_HOUR. -/
def UnitOfEnergy.WATT_HOUR : String := "Wh"

/-- Unit constant from the host framework: UnitOfPower.WATT. -/
def UnitOfPower.WATT : String := "W"

/-- Host framework constant SensorStateClass.MEASUREMENT. -/
def SensorStateClass.MEASUREMENT : String := "measurement"

/-- Host framework constant SensorDeviceClass.BATTERY. -/
def SensorDeviceClass.BATTERY : String := "battery"

/-- Host framework constant SensorDeviceClass.ENERGY_STORAGE. -/
def SensorDeviceClass.ENERGY_STORAGE : String := "energy_storage"

/-- Host framework constant SensorDeviceClass.POWER. -/
def SensorDeviceClass.POWER : String := "power"

/-- Embedding of MaxStorageSensorDescription, flattening the host
SensorEntityDescription fields used by the table together with the
MaxStorageSensorDescriptionMixin field value_fn. The attr_fn field
defaults to a function producing the empty attribute mapping, exactly as
in the source. -/
structure MaxStorageSensorDescription where
  key : String
  translation_key : String
  icon : String
  value_fn : PyVal → Except PyErr PyVal
  native_unit_of_measurement : Option String := Option.none
  state_class : Option String := Option.none
  device_class : Option String := Option.none
  attr_fn : PyVal → Except PyErr (List (String × PyVal)) := fun _ => Except.ok []

/-- Modelled from the spec: the api object held by the coordinator is not
part of this source excerpt; per the spec it exposes a stable per-device
identity token, read by the sensor constructor as device_info with key
Ident. -/
structure MaxStorageApi where
  device_info_Ident : String

/-- Modelled from the spec: the update source (MaxStorageDataUpdateCoordinator)
is not part of this source excerpt. It holds the most recently fetched
snapshot in data; before the first successful fetch, data is the unset
marker, which in the host runtime is the Python value None (PyVal.none
here). It also carries the api object and static device metadata. -/
structure MaxStorageDataUpdateCoordinator where
  api : MaxStorageApi
  device_info : String
  data : PyVal

/-- Embedding of the MaxStorageSensor adapter state after construction. -/
structure MaxStorageSensor where
  coordinator : MaxStorageDataUpdateCoordinator
  entity_description : MaxStorageSensorDescription
  attr_unique_id : String
  attr_device_info : String

/-- Embedding of MaxStorageSensor constructor: stores the coordinator and
description and derives the unique id as the f-string joining the device
Ident token, an underscore, and the description translation_key. -/
def MaxStorageSensor.init (coordinator : MaxStorageDataUpdateCoordinator)
    (description : MaxStorageSensorDescription) : MaxStorageSensor :=
  { coordinator := coordinator
    entity_description := description
    attr_unique_id :=
      coordinator.api.device_info_Ident ++ "_" ++ description.translation_key
    attr_device_info := coordinator.device_info }

/-- Embedding of the native_value property: applies the description
value_fn to the coordinator data, with no guard for the unset case. -/
def MaxStorageSensor.native_value (self : MaxStorageSensor) : Except PyErr PyVal :=
  self.entity_description.value_fn self.coordinator.data

/-- Embedding of the extra_state_attributes property: applies the
description attr_fn to the coordinator data. -/
def MaxStorageSensor.extra_state_attributes (self : MaxStorageSensor) :
    Except PyErr (List (String × PyVal)) :=
  self.entity_description.attr_fn self.coordinator.data

/-- Table entry with key batterySoC. -/
def batterySoCDescription : MaxStorageSensorDescription :=
  { key := "batterySoC"
    translation_key := "battery_soc"
    icon := "mdi:battery"
    value_fn := fun data => subscript data "batterySoC"
    native_unit_of_measurement := Option.some PERCENTAGE
    state_class := Option.some SensorStateClass.MEASUREMENT
    device_class := Option.some SensorDeviceClass.BATTERY }

/-- Table entry with key batteryCapacity. -/
def batteryCapacityDescription : MaxStorageSensorDescription :=
  { key := "batteryCapacity"
    translation_key := "battery_capacity"
    icon := "mdi:battery"
    value_fn := fun data => subscript data "batteryCapacity"
    native_unit_of_measurement := Option.some UnitOfEnergy.WATT_HOUR
    state_class := Option.some SensorStateClass.MEASUREMENT
    device_class := Option.some SensorDeviceClass.ENERGY_STORAGE }

/-- Table entry with key batteryPower. -/
def batteryPowerDescription : MaxStorageSensorDescription :=
  { key := "batteryPower"
    translation_key := "battery_power"
    icon := "mdi:battery"
    value_fn := fun data => subscript data "batteryPower"
    native_unit_of_measurement := Option.some UnitOfPower.WATT
    state_class := Option.some SensorStateClass.MEASUREMENT
    device_class := Option.some SensorDeviceClass.POWER }

/-- Table entry with key gridPower. -/
def gridPowerDescription : MaxStorageSensorDescription :=
  { key := "gridPower"
    translation_key := "grid_power"
    icon := "mdi:transmission-tower"
    value_fn := fun data => subscript data "gridPower"
    native_unit_of_measurement := Option.some UnitOfPower.WATT
    state_class := Option.some SensorStateClass.MEASUREMENT
    device_class := Option.some SensorDeviceClass.POWER }

/-- Table entry with key usagePower. -/
def usagePowerDescription : MaxStorageSensorDescription :=
  { key := "usagePower"
    translation_key := "usage_power"
    icon := "mdi:transmission-tower"
    value_fn := fun data => subscript data "usagePower"
    native_unit_of_measurement := Option.some UnitOfPower.WATT
    state_class := Option.some SensorStateClass.MEASUREMENT
    device_class := Option.some SensorDeviceClass.POWER }

/-- Table entry with key plantPower. -/
def plantPowerDescription : MaxStorageSensorDescription :=
  { key := "plantPower"
    translation_key := "plant_power"
    icon := "mdi:solar-power"
    value_fn := fun data => subscript data "plantPower"
    native_unit_of_measurement := Option.some UnitOfPower.WATT
    state_class := Option.some SensorStateClass.MEASUREMENT
    device_class := Option.some SensorDeviceClass.POWER }

/-- Table entry with key storage_dc_power; note that in the source this
entry has key storage_dc_power while its translation_key is storageDCPower,
and its value_fn reads the snapshot field storageDCPower. -/
def storage_dc_powerDescription : MaxStorageSensorDescription :=
  { key := "storage_dc_power"
    translation_key := "storageDCPower"
    icon := "mdi:solar-power"
    value_fn := fun data => subscript data "storageDCPower"
    native_unit_of_measurement := Option.some UnitOfPower.WATT
    state_class := Option.some SensorStateClass.MEASUREMENT
    device_class := Option.some SensorDeviceClass.POWER }

/-- Table entry with key mppt1Power; its value_fn reads storageMPPT1Power. -/
def mppt1PowerDescription : MaxStorageSensorDescription :=
  { key := "mppt1Power"
    translation_key := "mppt1_power"
    icon := "mdi:solar-power"
    value_fn := fun data => subscript data "storageMPPT1Power"
    native_unit_of_measurement := Option.some UnitOfPower.WATT
    state_class := Option.some SensorStateClass.MEASUREMENT
    device_class := Option.some SensorDeviceClass.POWER }

/-- Table entry with key mppt2Power; its value_fn reads storageMPPT2Power. -/
def mppt2PowerDescription : MaxStorageSensorDescription :=
  { key := "mppt2Power"
    translation_key := "mppt2_power"
    icon := "mdi:solar-power"
    value_fn := fun data => subscript data "storageMPPT2Power"
    native_unit_of_measurement := Option.some UnitOfPower.WATT
    state_class := Option.some SensorStateClass.MEASUREMENT
    device_class := Option.some SensorDeviceClass.POWER }

/-- Table entry with key deviceInUpdate, a boolean flag read from the
SpecialState block and compared against the string true. -/
def deviceInUpdateDescription : MaxStorageSensorDescription :=
  { key := "deviceInUpdate"
    translation_key := "device_in_update"
    icon := "mdi:update"
    value_fn := fun data =>
      Except.bind (subscript data "SpecialState") fun ss =>
        Except.bind (subscript ss "deviceInUpdate") fun v =>
          Except.ok (PyVal.bool (pyEqStr v "true")) }

/-- Table entry with key dcSwitchOff. -/
def dcSwitchOffDescription : MaxStorageSensorDescription :=
  { key := "dcSwitchOff"
    translation_key := "dc_switch_off"
    icon := "mdi:toggle-switch-off"
    value_fn := fun data =>
      Except.bind (subscript data "SpecialState") fun ss =>
        Except.bind (subscript ss "dcSwitchOff") fun v =>
          Except.ok (PyVal.bool (pyEqStr v "true")) }

/-- Table entry with key gridCodeUnknown. -/
def gridCodeUnknownDescription : MaxStorageSensorDescription :=
  { key := "gridCodeUnknown"
    translation_key := "grid_code_unknown"
    icon := "mdi:help"
    value_fn := fun data =>
      Except.bind (subscript data "SpecialState") fun ss =>
        Except.bind (subscript ss "gridCodeUnknown") fun v =>
          Except.ok (PyVal.bool (pyEqStr v "true")) }

/-- Table entry with key inWinterMode. -/
def inWinterModeDescription : MaxStorageSensorDescription :=
  { key := "inWinterMode"
    translation_key := "in_winter_mode"
    icon := "mdi:snowflake"
    value_fn := fun data =>
      Except.bind (subscript data "SpecialState") fun ss =>
        Except.bind (subscript ss "inWinterMode") fun v =>
          Except.ok (PyVal.bool (pyEqStr v "true")) }

/-- Table entry with key inBMZEqualization. -/
def inBMZEqualizationDescription : MaxStorageSensorDescription :=
  { key := "inBMZEqualization"
    translation_key := "in_bmz_equalization"
    icon := "mdi:battery-50"
    value_fn := fun data =>
      Except.bind (subscript data "SpecialState") fun ss =>
        Except.bind (subscript ss "inBMZEqualization") fun v =>
          Except.ok (PyVal.bool (pyEqStr v "true")) }

/-- Table entry with key inPeakShaving. -/
def inPeakShavingDescription : MaxStorageSensorDescription :=
  { key := "inPeakShaving"
    translation_key := "in_peak_shaving"
    icon := "mdi:flash"
    value_fn := fun data =>
      Except.bind (subscript data "SpecialState") fun ss =>
        Except.bind (subscript ss "inPeakShaving") fun v =>
          Except.ok (PyVal.bool (pyEqStr v "true")) }

/-- Table entry with key inOptimizationLimit. -/
def inOptimizationLimitDescription : MaxStorageSensorDescription :=
  { key := "inOptimizationLimit"
    translation_key := "in_optimization_limit"
    icon := "mdi:tune"
    value_fn := fun data =>
      Except.bind (subscript data "SpecialState") fun ss =>
        Except.bind (subscript ss "inOptimizationLimit") fun v =>
          Except.ok (PyVal.bool (pyEqStr v "true")) }

/-- Table entry with key inBatteryCalibration. -/
def inBatteryCalibrationDescription : MaxStorageSensorDescription :=
  { key := "inBatteryCalibration"
    translation_key := "in_battery_calibration"
    icon := "mdi:battery-sync"
    value_fn := fun data =>
      Except.bind (subscript data "SpecialState") fun ss =>
        Except.bind (subscript ss "inBatteryCalibration") fun v =>
          Except.ok (PyVal.bool (pyEqStr v "true")) }

/-- Table entry with key noPowerMeter. -/
def noPowerMeterDescription : MaxStorageSensorDescription :=
  { key := "noPowerMeter"
    translation_key := "no_power_meter"
    icon := "mdi:diameter-variant"
    value_fn := fun data =>
      Except.bind (subscript data "SpecialState") fun ss =>
        Except.bind (subscript ss "noPowerMeter") fun v =>
          Except.ok (PyVal.bool (pyEqStr v "true")) }

/-- Table entry with key gridError. -/
def gridErrorDescription : MaxStorageSensorDescription :=
  { key := "gridError"
    translation_key := "grid_error"
    icon := "mdi:alert-circle-outline"
    value_fn := fun data =>
      Except.bind (subscript data "SpecialState") fun ss =>
        Except.bind (subscript ss "gridError") fun v =>
          Except.ok (PyVal.bool (pyEqStr v "true")) }

/-- Table entry with key gridLocked. -/
def gridLockedDescription : MaxStorageSensorDescription :=
  { key := "gridLocked"
    translation_key := "grid_locked"
    icon := "mdi:lock"
    value_fn := fun data =>
      Except.bind (subscript data "SpecialState") fun ss =>
        Except.bind (subscript ss "gridLocked") fun v =>
          Except.ok (PyVal.bool (pyEqStr v "true")) }

/-- Table entry with key islandActive. -/
def islandActiveDescription : MaxStorageSensorDescription :=
  { key := "islandActive"
    translation_key := "island_active"
    icon := "mdi:island"
    value_fn := fun data =>
      Except.bind (subscript data "SpecialState") fun ss =>
        Except.bind (subscript ss "islandActive") fun v =>
          Except.ok (PyVal.bool (pyEqStr v "true")) }

/-- Table entry with key serviceMode. -/
def serviceModeDescription : MaxStorageSensorDescription :=
  { key := "serviceMode"
    translation_key := "service_mode"
    icon := "mdi:toolbox-outline"
    value_fn := fun data =>
      Except.bind (subscript data "SpecialState") fun ss =>
        Except.bind (subscript ss "serviceMode") fun v =>
          Except.ok (PyVal.bool (pyEqStr v "true")) }

/-- The SENSOR_TYPES table, in source order. -/
def SENSOR_TYPES : List MaxStorageSensorDescription :=
  [batterySoCDescription,
   batteryCapacityDescription,
   batteryPowerDescription,
   gridPowerDescription,
   usagePowerDescription,
   plantPowerDescription,
   storage_dc_powerDescription,
   mppt1PowerDescription,
   mppt2PowerDescription,
   deviceInUpdateDescription,
   dcSwitchOffDescription,
   gridCodeUnknownDescription,
   inWinterModeDescription,
   inBMZEqualizationDescription,
   inPeakShavingDescription,
   inOptimizationLimitDescription,
   inBatteryCalibrationDescription,
   noPowerMeterDescription,
   gridErrorDescription,
   gridLockedDescription,
   islandActiveDescription,
   serviceModeDescription]

/-- The thirteen boolean-flag entries of the table, in source order. -/
def flagDescriptions : List MaxStorageSensorDescription :=
  [deviceInUpdateDescription,
   dcSwitchOffDescription,
   gridCodeUnknownDescription,
   inWinterModeDescription,
   inBMZEqualizationDescription,
   inPeakShavingDescription,
   inOptimizationLimitDescription,
   inBatteryCalibrationDescription,
   noPowerMeterDescription,
   gridErrorDescription,
   gridLockedDescription,
   islandActiveDescription,
   serviceModeDescription]

/-- The nine numeric entries of the table paired with the top-level
snapshot field each value_fn reads. -/
def numericFieldPairs : List (MaxStorageSensorDescription × String) :=
  [(batterySoCDescription, "batterySoC"),
   (batteryCapacityDescription, "batteryCapacity"),
   (batteryPowerDescription, "batteryPower"),
   (gridPowerDescription, "gridPower"),
   (usagePowerDescription, "usagePower"),
   (plantPowerDescription, "plantPower"),
   (storage_dc_powerDescription, "storageDCPower"),
   (mppt1PowerDescription, "storageMPPT1Power"),
   (mppt2PowerDescription, "storageMPPT2Power")]

/-- A sample snapshot body holding every top-level numeric field and no
SpecialState block. -/
def sampleTopLevel : List (String × PyVal) :=
  [("batterySoC", PyVal.int 55),
   ("batteryCapacity", PyVal.int 10000),
   ("batteryPower", PyVal.int 1500),
   ("gridPower", PyVal.int 120),
   ("usagePower", PyVal.int 300),
   ("plantPower", PyVal.int 800),
   ("storageDCPower", PyVal.int 700),
   ("storageMPPT1Power", PyVal.int 350),
   ("storageMPPT2Power", PyVal.int 350)]

theorem except_bind_ok {ε α β : Type} (a : α) (f : α → Except ε β) :
    Except.bind (Except.ok a) f = f a := rfl

/-- Evaluation of a flag projection when the SpecialState block and the
flag key are both present with a string value. -/
theorem flag_eval (k : String) (data ss : PyVal) (s : String)
    (h1 : subscript data "SpecialState" = Except.ok ss)
    (h2 : subscript ss k = Except.ok (PyVal.str s)) :
    Except.bind (subscript data "SpecialState") (fun ss2 =>
      Except.bind (subscript ss2 k) fun v => Except.ok (PyVal.bool (pyEqStr v "true"))) =
      Except.ok (PyVal.bool (s == "true")) := by
  rw [h1, except_bind_ok, h2, except_bind_ok]
  rfl

/-- Evaluation of a flag projection when reading the SpecialState block
itself raises: the error propagates. -/
theorem flag_eval_err (k : String) (data : PyVal) (e : PyErr)
    (h1 : subscript data "SpecialState" = Except.error e) :
    Except.bind (subscript data "SpecialState") (fun ss =>
      Except.bind (subscript ss k) fun v => Except.ok (PyVal.bool (pyEqStr v "true"))) =
      Except.error e := by
  rw [h1]
  rfl

theorem string_append_cancel_right {a b c : String} (h : a ++ c = b ++ c) : a = b := by
  have hd : a.data ++ c.data = b.data ++ c.data := by
    rw [← String.data_append, ← String.data_append, h]
  exact String.ext (List.append_cancel_right hd)

theorem string_append_cancel_left {a b c : String} (h : a ++ b = a ++ c) : b = c := by
  have hd : a.data ++ b.data = a.data ++ c.data := by
    rw [← String.data_append, ← String.data_append, h]
  exact String.ext (List.append_cancel_left hd)

/-- C1 counterexample: the claim says that before any completed update
current_value returns the unknown sentinel rather than raising; on the
code, with the update source in its pre-first-fetch state, the batterySoC
adapter raises a type error and does not return the sentinel None. -/
theorem C1_counterexample :
    (MaxStorageSensor.init ⟨⟨"MS123"⟩, "", PyVal.none⟩ batterySoCDescription).native_value =
      Except.error PyErr.typeError ∧
    (MaxStorageSensor.init ⟨⟨"MS123"⟩, "", PyVal.none⟩ batterySoCDescription).native_value ≠
      Except.ok PyVal.none :=
  ⟨rfl, fun h => nomatch h⟩

/-- C1 amended: for every adapter built from a descriptor in the table,
when the update source has no snapshot yet (its data is the unset marker),
current_value raises a type error from subscripting the unset snapshot;
there is no unknown-sentinel fallback in this layer. -/
theorem C1_no_snapshot_raises (d : MaxStorageSensorDescription)
    (hd : d ∈ SENSOR_TYPES) (ident di : String) :
    (MaxStorageSensor.init ⟨⟨ident⟩, di, PyVal.none⟩ d).native_value =
      Except.error PyErr.typeError := by
  fin_cases hd <;> rfl

/-- C1 witness: the amended statement evaluated at the gridPower
descriptor with a concrete device identity. -/
theorem C1_witness :
    (MaxStorageSensor.init ⟨⟨"MS123"⟩, "", PyVal.none⟩ gridPowerDescription).native_value =
      Except.error PyErr.typeError :=
  C1_no_snapshot_raises gridPowerDescription (by simp [SENSOR_TYPES]) "MS123" ""

/-- C2 counterexample: for the storage_dc_power descriptor the derived
unique id is built from the translation_key, so it differs from the
concatenation of the device identity token and the descriptor key, under
both the plain and the underscore-separated reading of concatenation. -/
theorem C2_counterexample :
    (MaxStorageSensor.init ⟨⟨"MS7"⟩, "", PyVal.none⟩ storage_dc_powerDescription).attr_unique_id ≠
      "MS7" ++ "_" ++ storage_dc_powerDescription.key ∧
    (MaxStorageSensor.init ⟨⟨"MS7"⟩, "", PyVal.none⟩ storage_dc_powerDescription).attr_unique_id ≠
      "MS7" ++ storage_dc_powerDescription.key ∧
    (MaxStorageSensor.init ⟨⟨"MS7"⟩, "", PyVal.none⟩ storage_dc_powerDescription).attr_unique_id =
      "MS7_storageDCPower" := by
  refine ⟨?_, ?_, rfl⟩ <;> decide

/-- C2 amended: for every descriptor in the table and every device, the
adapter unique id is the concatenation of the device identity token, an
underscore, and the descriptor translation_key. -/
theorem C2_unique_id_from_translation_key (d : MaxStorageSensorDescription)
    (_hd : d ∈ SENSOR_TYPES) (ident di : String) (data : PyVal) :
    (MaxStorageSensor.init ⟨⟨ident⟩, di, data⟩ d).attr_unique_id =
      ident ++ "_" ++ d.translation_key := rfl

/-- C2 witness: the amended statement evaluated at the batteryCapacity
descriptor with a concrete device identity. -/
theorem C2_witness :
    (MaxStorageSensor.init ⟨⟨"X"⟩, "", PyVal.none⟩ batteryCapacityDescription).attr_unique_id =
      "X" ++ "_" ++ batteryCapacityDescription.translation_key :=
  C2_unique_id_from_translation_key batteryCapacityDescription
    (by simp [SENSOR_TYPES]) "X" "" PyVal.none

/-- C3: for every boolean-flag descriptor and every snapshot whose
SpecialState block maps the flag key to a string s, the projected value is
the boolean equal to the exact string comparison of s against true: true
exactly for the string true and false for every other string, case
variants included. -/
theorem C3_flag_projection (d : MaxStorageSensorDescription)
    (hd : d ∈ flagDescriptions) (data ss : PyVal) (s ident di : String)
    (h1 : subscript data "SpecialState" = Except.ok ss)
    (h2 : subscript ss d.key = Except.ok (PyVal.str s)) :
    (MaxStorageSensor.init ⟨⟨ident⟩, di, data⟩ d).native_value =
      Except.ok (PyVal.bool (s == "true")) := by
  fin_cases hd <;> exact flag_eval _ data ss s h1 h2

/-- C3 witness: the islandActive adapter on a snapshot carrying the case
variant True projects to boolean false. -/
theorem C3_witness :
    (MaxStorageSensor.init ⟨⟨"DEV"⟩, "",
        PyVal.dict [("SpecialState", PyVal.dict [("islandActive", PyVal.str "True")])]⟩
      islandActiveDescription).native_value = Except.ok (PyVal.bool false) := by
  rw [C3_flag_projection islandActiveDescription (by simp [flagDescriptions])
      (PyVal.dict [("SpecialState", PyVal.dict [("islandActive", PyVal.str "True")])])
      (PyVal.dict [("islandActive", PyVal.str "True")]) "True" "DEV" "" rfl rfl]
  rfl

/-- C4: for every snapshot dictionary lacking the SpecialState key, every
flag adapter raises keyError on SpecialState (the MissingFieldError of the
spec, propagated), while every numeric adapter whose top-level field is
present in the snapshot still returns its value unaffected. -/
theorem C4_missing_special_state (es : List (String × PyVal)) (ident di : String)
    (h : es.lookup "SpecialState" = Option.none) :
    (∀ d ∈ flagDescriptions,
      (MaxStorageSensor.init ⟨⟨ident⟩, di, PyVal.dict es⟩ d).native_value =
        Except.error (PyErr.keyError "SpecialState")) ∧
    (∀ p ∈ numericFieldPairs, ∀ v : PyVal,
      subscript (PyVal.dict es) p.2 = Except.ok v →
      (MaxStorageSensor.init ⟨⟨ident⟩, di, PyVal.dict es⟩ p.1).native_value =
        Except.ok v) := by
  have hs : subscript (PyVal.dict es) "SpecialState" =
      Except.error (PyErr.keyError "SpecialState") := by
    show (match es.lookup "SpecialState" with
      | Option.some v => Except.ok v
      | Option.none => Except.error (PyErr.keyError "SpecialState")) = _
    rw [h]
  refine ⟨?_, ?_⟩
  · intro d hd
    fin_cases hd <;> exact flag_eval_err _ _ _ hs
  · intro p hp v hv
    fin_cases hp <;> exact hv

/-- C4 witness: on a snapshot with all numeric fields and no SpecialState
block, the deviceInUpdate adapter raises keyError on SpecialState while
the batteryPower adapter still returns 1500. -/
theorem C4_witness :
    (MaxStorageSensor.init ⟨⟨"DEV"⟩, "", PyVal.dict sampleTopLevel⟩
        deviceInUpdateDescription).native_value =
      Except.error (PyErr.keyError "SpecialState") ∧
    (MaxStorageSensor.init ⟨⟨"DEV"⟩, "", PyVal.dict sampleTopLevel⟩
        batteryPowerDescription).native_value = Except.ok (PyVal.int 1500) :=
  ⟨(C4_missing_special_state sampleTopLevel "DEV" "" rfl).1 deviceInUpdateDescription
      (by simp [flagDescriptions]),
   (C4_missing_special_state sampleTopLevel "DEV" "" rfl).2
      (batteryPowerDescription, "batteryPower") (by simp [numericFieldPairs])
      (PyVal.int 1500) rfl⟩

/-- C5: the key fields of the descriptor table are pairwise distinct. -/
theorem C5_keys_nodup : (SENSOR_TYPES.map (fun d => d.key)).Nodup := by decide

/-- C6: the batteryPower adapter is a pure passthrough: whenever the
snapshot maps batteryPower to a value, current_value returns that value
unmodified, with no conversion or scaling. -/
theorem C6_battery_power_passthrough (data : PyVal) (v : PyVal) (ident di : String)
    (h : subscript data "batteryPower" = Except.ok v) :
    (MaxStorageSensor.init ⟨⟨ident⟩, di, data⟩ batteryPowerDescription).native_value =
      Except.ok v := h

/-- C6 witness: on the snapshot mapping batteryPower to 1500 the adapter
returns 1500. -/
theorem C6_witness :
    (MaxStorageSensor.init ⟨⟨"DEV"⟩, "", PyVal.dict [("batteryPower", PyVal.int 1500)]⟩
        batteryPowerDescription).native_value = Except.ok (PyVal.int 1500) :=
  C6_battery_power_passthrough (PyVal.dict [("batteryPower", PyVal.int 1500)])
    (PyVal.int 1500) "DEV" "" rfl

/-- C7: every descriptor of the table keeps the default attr_fn, so the
attribute projection is the empty mapping on every input, including the
unset pre-first-update snapshot. -/
theorem C7_empty_attributes (d : MaxStorageSensorDescription) (hd : d ∈ SENSOR_TYPES)
    (data : PyVal) (ident di : String) :
    (MaxStorageSensor.init ⟨⟨ident⟩, di, data⟩ d).extra_state_attributes =
      Except.ok [] := by
  fin_cases hd <;> rfl

/-- C7 witness: the batterySoC adapter attributes before the first update
are the empty mapping. -/
theorem C7_witness :
    (MaxStorageSensor.init ⟨⟨"DEV"⟩, "", PyVal.none⟩
        batterySoCDescription).extra_state_attributes = Except.ok [] :=
  C7_empty_attributes batterySoCDescription (by simp [SENSOR_TYPES]) PyVal.none "DEV" ""

/-- C8: for any descriptor, two adapters built for devices with different
identity tokens have different unique ids. -/
theorem C8_distinct_devices (d : MaxStorageSensorDescription)
    (i1 i2 di1 di2 : String) (data1 data2 : PyVal) (hne : i1 ≠ i2) :
    (MaxStorageSensor.init ⟨⟨i1⟩, di1, data1⟩ d).attr_unique_id ≠
    (MaxStorageSensor.init ⟨⟨i2⟩, di2, data2⟩ d).attr_unique_id := by
  intro heq
  have h1 : i1 ++ "_" = i2 ++ "_" :=
    @string_append_cancel_right (i1 ++ "_") (i2 ++ "_") d.translation_key heq
  exact hne (@string_append_cancel_right i1 i2 "_" h1)

/-- C8 witness: with identities A and B the batterySoC adapters get
different unique ids. -/
theorem C8_witness :
    ("A" : String) ≠ "B" ∧
    (MaxStorageSensor.init ⟨⟨"A"⟩, "", PyVal.none⟩ batterySoCDescription).attr_unique_id ≠
    (MaxStorageSensor.init ⟨⟨"B"⟩, "", PyVal.none⟩ batterySoCDescription).attr_unique_id :=
  ⟨by decide,
   C8_distinct_devices batterySoCDescription "A" "B" "" "" PyVal.none PyVal.none (by decide)⟩

/-- C9: the translation_key fields of the table are pairwise distinct,
and consequently, for one device, adapters built from distinct table
positions have distinct unique ids, since the unique id is derived from
the device identity and the translation_key. -/
theorem C9_translation_keys_nodup :
    (SENSOR_TYPES.map (fun d => d.translation_key)).Nodup ∧
    ∀ (ident di : String) (data : PyVal) (i j : Fin SENSOR_TYPES.length), i ≠ j →
      (MaxStorageSensor.init ⟨⟨ident⟩, di, data⟩ (SENSOR_TYPES.get i)).attr_unique_id ≠
      (MaxStorageSensor.init ⟨⟨ident⟩, di, data⟩ (SENSOR_TYPES.get j)).attr_unique_id := by
  have hk : ∀ i j : Fin SENSOR_TYPES.length, i ≠ j →
      (SENSOR_TYPES.get i).translation_key ≠ (SENSOR_TYPES.get j).translation_key := by
    decide
  refine ⟨by decide, ?_⟩
  intro ident di data i j hij heq
  exact hk i j hij
    (@string_append_cancel_left (ident ++ "_") (SENSOR_TYPES.get i).translation_key
      (SENSOR_TYPES.get j).translation_key heq)

/-- C9 witness: the nodup part together with the unique id inequality for
the first two table positions on one concrete device. -/
theorem C9_witness :
    (SENSOR_TYPES.map (fun d => d.translation_key)).Nodup ∧
    (MaxStorageSensor.init ⟨⟨"DEV"⟩, "", PyVal.none⟩
        (SENSOR_TYPES.get ⟨0, by decide⟩)).attr_unique_id ≠
    (MaxStorageSensor.init ⟨⟨"DEV"⟩, "", PyVal.none⟩
        (SENSOR_TYPES.get ⟨1, by decide⟩)).attr_unique_id :=
  ⟨C9_translation_keys_nodup.1,
   C9_translation_keys_nodup.2 "DEV" "" PyVal.none ⟨0, by decide⟩ ⟨1, by decide⟩ (by decide)⟩

end MaxStorage
